import Mathlib

/-!
Shallow embedding of `invokeai/backend/model_manager/load/model_loaders/flux.py`:
the Flux model-loader classes of InvokeAI (FluxVAELoader, ClipCheckpointModel,
T5Encoder8bCheckpointModel, T5EncoderCheckpointModel, FluxCheckpointModel,
FluxBnbQuantizednf4bCheckpointModel).

Each loader's `_load_model` is embedded as a Lean function from an explicit
filesystem environment (`Env`) and a record of uninterpreted external-library
behaviour (`ExternalLibs`) to a result `Except LoadError AnyModel` paired with
a trace of observable events (`List Event`): file opens, YAML parses, warning
suppression enter/exit, skeleton construction, quantization, weight-file reads
and state-dict overlays.  The trace order mirrors, line by line, the statement
order of the Python source.

External collaborators (the `AutoEncoder` / `Flux` network classes, the
`quantize_model_nf4` routine, the tokenizer/encoder `from_pretrained`
constructors, and `GenericDiffusersLoader._load_model`) are code outside the
given source file; they are kept uninterpreted as fields of `ExternalLibs`,
so every theorem quantifies over their behaviour.
-/

set_option autoImplicit false

namespace FluxLoaders

/-- Sub-model identifiers (the `SubModelType` enum of the model manager;
only membership in the closed enumeration matters here). -/
inductive SubModelType where
  | UNet
  | TextEncoder
  | TextEncoder2
  | TextEncoder3
  | Tokenizer
  | Tokenizer2
  | Tokenizer3
  | VAE
  | VAEDecoder
  | VAEEncoder
  | Scheduler
  | SafetyChecker
  | Transformer
  deriving DecidableEq, Repr

/-- Modelled from the spec: the configuration records are a tagged union
(`AnyModelConfig`) over checkpoint / diffusers / quantized / t5-variant
configs.  The concrete config classes live in
`invokeai/backend/model_manager/config.py`, outside the given source file.
The three single-file checkpoint variants (`VAECheckpointConfig`,
`MainCheckpointConfig`, `MainBnbQuantized4bCheckpointConfig`) all carry a
`config_path` field and derive from `CheckpointConfigBase` (the source
accesses `config.config_path` after checking only `CheckpointConfigBase`,
and does so on a `VAECheckpointConfig` in `FluxVAELoader`). -/
inductive ModelConfig where
  | vaeCheckpoint (path : String) (config_path : String)
  | mainCheckpoint (path : String) (config_path : String)
  | mainBnbQuantized4bCheckpoint (path : String) (config_path : String)
  | clipEmbedDiffusers (path : String)
  | t5Encoder8b (path : String)
  | t5Encoder (path : String)
  deriving DecidableEq, Repr

/-- Python `isinstance(config, CheckpointConfigBase)`: true exactly for the
three single-file checkpoint config variants. -/
def ModelConfig.isCheckpointConfigBase : ModelConfig → Bool
  | .vaeCheckpoint _ _ => true
  | .mainCheckpoint _ _ => true
  | .mainBnbQuantized4bCheckpoint _ _ => true
  | _ => false

/-- Python `isinstance(config, VAECheckpointConfig)`. -/
def ModelConfig.isVAECheckpoint : ModelConfig → Bool
  | .vaeCheckpoint _ _ => true
  | _ => false

/-- Python `isinstance(config, CLIPEmbedDiffusersConfig)`. -/
def ModelConfig.isClipEmbedDiffusers : ModelConfig → Bool
  | .clipEmbedDiffusers _ => true
  | _ => false

/-- Python `isinstance(config, T5Encoder8bConfig)`. -/
def ModelConfig.isT5Encoder8b : ModelConfig → Bool
  | .t5Encoder8b _ => true
  | _ => false

/-- Python `isinstance(config, T5EncoderConfig)`. -/
def ModelConfig.isT5Encoder : ModelConfig → Bool
  | .t5Encoder _ => true
  | _ => false

/-- The `(path, config_path)` fields available on a `CheckpointConfigBase`;
`none` for config variants that are not checkpoint-based. -/
def checkpointFields : ModelConfig → Option (String × String)
  | .vaeCheckpoint p cp => some (p, cp)
  | .mainCheckpoint p cp => some (p, cp)
  | .mainBnbQuantized4bCheckpoint p cp => some (p, cp)
  | _ => none

/-- A state dict: flat mapping from dotted parameter name to a tensor,
modelled as an opaque blob identifier. -/
def StateDict := List (String × Nat)

instance : DecidableEq StateDict := by
  unfold StateDict
  infer_instance

instance : Repr StateDict :=
  inferInstanceAs (Repr (List (String × Nat)))

/-- A parsed YAML architecture-metadata document: top-level keys mapping to
sub-mappings of named integer hyperparameters (only the `params` key is ever
read by the source). -/
def YamlDoc := List (String × List (String × Int))

instance : DecidableEq YamlDoc := by
  unfold YamlDoc
  infer_instance

/-- First-match association-list lookup (Python `dict` access / `.get`). -/
def alookup {α : Type} : List (String × α) → String → Option α
  | [], _ => none
  | (k, v) :: rest, key => if k = key then some v else alookup rest key

/-- Errors a load call can raise.  The Python source raises bare `Exception`s
and `AssertionError`s; the spec's taxonomy names them `ConfigTypeMismatch`,
`UnsupportedSubPart`, `ConfigParseError` and pass-through deserializer
errors.  `assertionError` is the `assert isinstance(...)` failure inside
`_load_from_singlefile`, kept distinct from the `configTypeMismatch` raised
by the explicit `isinstance` guard at the top of `_load_model`. -/
inductive LoadError where
  | configTypeMismatch
  | unsupportedSubPart
  | configParseError
  | keyError
  | dataclassError
  | deserializeError
  | assertionError
  deriving DecidableEq, Repr

/-- Observable events of a load call, in program order. -/
inductive Event where
  | openYaml (path : String)
  | parseYaml (path : String)
  | silenceEnter
  | silenceExit
  | constructSkeleton
  | constructSkeletonEmpty
  | quantize
  | readWeightFile (path : String)
  | overlayStateDict
  | fromPretrained (dir : String)
  | delegateToSuper
  deriving DecidableEq, Repr

/-- A constructed model object (the `AnyModel` return value). -/
inductive AnyModel where
  | net (arch : List (String × Int)) (sd : StateDict) (quantized : Bool)
  | clipTokenizer (dir : String) (max_length : Nat)
  | clipTextEncoder (dir : String)
  | t5Tokenizer (dir : String) (max_length : Nat)
  | t5TextEncoder (dir : String)
  | fastQuantizedTransformers (dir : String)
  deriving DecidableEq, Repr

/-- The filesystem as the loaders see it: the legacy-config root directory,
the YAML files reachable under it (`some none` = file present but malformed,
`none` = file missing — both make `open`/`yaml.safe_load` raise), and the
safetensors weight files. -/
structure Env where
  legacy_conf_path : String
  yamlFiles : List (String × Option YamlDoc)
  weightFiles : List (String × StateDict)

/-- Uninterpreted behaviour of the external libraries the loaders call into.
Every theorem below quantifies over an arbitrary `ExternalLibs`. -/
structure ExternalLibs where
  /-- field names of the `AutoEncoderParams` dataclass (`fields(...)`) -/
  autoEncoderFields : List String
  /-- field names of the `FluxParams` dataclass -/
  fluxFields : List String
  /-- whether `AutoEncoderParams(**kwargs)` accepts the keyword set -/
  autoEncoderParamsOk : List (String × Int) → Bool
  /-- whether `FluxParams(**kwargs)` accepts the keyword set -/
  fluxParamsOk : List (String × Int) → Bool
  /-- initial state dict of a freshly constructed `AutoEncoder(params)` -/
  autoEncoderInit : List (String × Int) → StateDict
  /-- initial state dict of a freshly constructed `Flux(params)` -/
  fluxInit : List (String × Int) → StateDict
  /-- state dict of `Flux(params)` built under `accelerate.init_empty_weights()` -/
  fluxInitEmpty : List (String × Int) → StateDict
  /-- effect of `quantize_model_nf4(model, modules_to_not_convert, compute_dtype=bfloat16)` -/
  quantizeNF4 : List String → StateDict → StateDict
  /-- behaviour of `GenericDiffusersLoader._load_model` (the superclass) -/
  superLoad : ModelConfig → Option SubModelType → Except LoadError AnyModel

/-- Embedding of `torch.nn.Module.load_state_dict(sd, strict, assign)`: with
`strict = false` the overlay is non-strict — every skeleton parameter whose
name occurs in `sd` takes the file's tensor, parameters absent from `sd`
keep their skeleton tensor, and names in `sd` absent from the skeleton are
ignored.  With `strict = true` a key-set mismatch raises.  The `assign` flag
(replace-by-reference vs copy-in-place) is value-irrelevant in this model. -/
def load_state_dict (strict : Bool) (_assign : Bool) (skeleton sd : StateDict) :
    Except LoadError StateDict :=
  let keysSk := (skeleton : List (String × Nat)).map Prod.fst
  let keysSd := (sd : List (String × Nat)).map Prod.fst
  if strict && !(keysSd.all (fun k => keysSk.contains k) &&
                 keysSk.all (fun k => keysSd.contains k)) then
    .error .deserializeError
  else
    .ok ((skeleton : List (String × Nat)).map (fun kv =>
      match alookup sd kv.1 with
      | some v => (kv.1, v)
      | none => kv))

/-- The architecture-metadata filter:
`{k: v for k, v in flux_conf["params"].items() if k in dataclass_fields}`. -/
def filteredData (conf : List (String × Int)) (dataclass_fields : List String) :
    List (String × Int) :=
  conf.filter (fun kv => dataclass_fields.contains kv.1)

/-- Path resolution `app_config.legacy_conf_path / config.config_path`
(then `.as_posix()`). -/
def yamlFilePath (env : Env) (config_path : String) : String :=
  env.legacy_conf_path ++ "/" ++ config_path

/-- Trace of the `open(config_path)` / `yaml.safe_load(stream)` block when it
succeeds (the block is repeated verbatim in each checkpoint loader class). -/
def yamlIOTrace (env : Env) (config_path : String) : List Event :=
  [.openYaml (yamlFilePath env config_path),
   .parseYaml (yamlFilePath env config_path)]

/-- Embedding of `FluxVAELoader._load_model` (flux.py lines 47-74).
A missing YAML file makes `open` raise; a malformed one makes `safe_load`
raise; both propagate unchanged (`except: raise`). -/
def FluxVAELoader_load_model (env : Env) (libs : ExternalLibs)
    (config : ModelConfig) (submodel_type : Option SubModelType) :
    Except LoadError AnyModel × List Event :=
  match config with
  | .vaeCheckpoint path config_path =>
    match alookup env.yamlFiles (yamlFilePath env config_path) with
    | none => (.error .configParseError, [.openYaml (yamlFilePath env config_path)])
    | some none => (.error .configParseError, yamlIOTrace env config_path)
    | some (some flux_conf) =>
      match alookup flux_conf "params" with
      | none => (.error .keyError, yamlIOTrace env config_path)
      | some rawParams =>
        let fd := filteredData rawParams libs.autoEncoderFields
        if libs.autoEncoderParamsOk fd then
          match alookup env.weightFiles path with
          | none =>
            (.error .deserializeError,
             yamlIOTrace env config_path ++
               [.silenceEnter, .constructSkeleton, .readWeightFile path,
                .silenceExit])
          | some sd =>
            match load_state_dict false true (libs.autoEncoderInit fd) sd with
            | .error e =>
              (.error e,
               yamlIOTrace env config_path ++
                 [.silenceEnter, .constructSkeleton, .readWeightFile path,
                  .overlayStateDict, .silenceExit])
            | .ok finalSd =>
              (.ok (.net fd finalSd false),
               yamlIOTrace env config_path ++
                 [.silenceEnter, .constructSkeleton, .readWeightFile path,
                  .overlayStateDict, .silenceExit])
        else (.error .dataclassError, yamlIOTrace env config_path)
  | _ => (libs.superLoad config submodel_type, [.delegateToSuper])

/-- Embedding of `ClipCheckpointModel._load_model` (flux.py lines 81-95). -/
def ClipCheckpointModel_load_model (_env : Env) (_libs : ExternalLibs)
    (config : ModelConfig) (submodel_type : Option SubModelType) :
    Except LoadError AnyModel × List Event :=
  match config with
  | .clipEmbedDiffusers path =>
    match submodel_type with
    | some .Tokenizer =>
      (.ok (.clipTokenizer path 77), [.fromPretrained path])
    | some .TextEncoder =>
      (.ok (.clipTextEncoder path), [.fromPretrained path])
    | _ => (.error .unsupportedSubPart, [])
  | _ => (.error .configTypeMismatch, [])

/-- Embedding of `T5Encoder8bCheckpointModel._load_model` (flux.py
lines 102-116). -/
def T5Encoder8bCheckpointModel_load_model (_env : Env) (_libs : ExternalLibs)
    (config : ModelConfig) (submodel_type : Option SubModelType) :
    Except LoadError AnyModel × List Event :=
  match config with
  | .t5Encoder8b path =>
    match submodel_type with
    | some .Tokenizer2 =>
      (.ok (.t5Tokenizer (path ++ "/tokenizer_2") 512),
       [.fromPretrained (path ++ "/tokenizer_2")])
    | some .TextEncoder2 =>
      (.ok (.fastQuantizedTransformers (path ++ "/text_encoder_2")),
       [.fromPretrained (path ++ "/text_encoder_2")])
    | _ => (.error .unsupportedSubPart, [])
  | _ => (.error .configTypeMismatch, [])

/-- Embedding of `T5EncoderCheckpointModel._load_model` (flux.py
lines 123-139). -/
def T5EncoderCheckpointModel_load_model (_env : Env) (_libs : ExternalLibs)
    (config : ModelConfig) (submodel_type : Option SubModelType) :
    Except LoadError AnyModel × List Event :=
  match config with
  | .t5Encoder path =>
    match submodel_type with
    | some .Tokenizer2 =>
      (.ok (.t5Tokenizer (path ++ "/tokenizer_2") 512),
       [.fromPretrained (path ++ "/tokenizer_2")])
    | some .TextEncoder2 =>
      (.ok (.t5TextEncoder (path ++ "/text_encoder_2")),
       [.fromPretrained (path ++ "/text_encoder_2")])
    | _ => (.error .unsupportedSubPart, [])
  | _ => (.error .configTypeMismatch, [])

/-- Embedding of `FluxCheckpointModel._load_from_singlefile` (flux.py
lines 167-184).  The local event trace starts after the caller's YAML
resolution; the first step is `assert isinstance(config, MainCheckpointConfig)`. -/
def FluxCheckpointModel_load_from_singlefile (env : Env) (libs : ExternalLibs)
    (config : ModelConfig) (flux_conf : YamlDoc) :
    Except LoadError AnyModel × List Event :=
  match config with
  | .mainCheckpoint path _ =>
    match alookup flux_conf "params" with
    | none => (.error .keyError, [])
    | some rawParams =>
      let fd := filteredData rawParams libs.fluxFields
      if libs.fluxParamsOk fd then
        let skel := libs.fluxInit fd
        match alookup env.weightFiles path with
        | none =>
          (.error .deserializeError,
           [.silenceEnter, .constructSkeleton, .readWeightFile path,
            .silenceExit])
        | some sd =>
          match load_state_dict false true skel sd with
          | .error e =>
            (.error e,
             [.silenceEnter, .constructSkeleton, .readWeightFile path,
              .overlayStateDict, .silenceExit])
          | .ok finalSd =>
            (.ok (.net fd finalSd false),
             [.silenceEnter, .constructSkeleton, .readWeightFile path,
              .overlayStateDict, .silenceExit])
      else (.error .dataclassError, [])
  | _ => (.error .assertionError, [])

/-- Embedding of `FluxCheckpointModel._load_model` (flux.py lines 146-165).
The guard is `isinstance(config, CheckpointConfigBase)` — the base class,
not the concrete `MainCheckpointConfig` — so any checkpoint-based config
reaches the YAML open/parse. -/
def FluxCheckpointModel_load_model (env : Env) (libs : ExternalLibs)
    (config : ModelConfig) (submodel_type : Option SubModelType) :
    Except LoadError AnyModel × List Event :=
  match checkpointFields config with
  | none => (.error .configTypeMismatch, [])
  | some (_, config_path) =>
    match alookup env.yamlFiles (yamlFilePath env config_path) with
    | none => (.error .configParseError, [.openYaml (yamlFilePath env config_path)])
    | some none => (.error .configParseError, yamlIOTrace env config_path)
    | some (some flux_conf) =>
      match submodel_type with
      | some .Transformer =>
        let r := FluxCheckpointModel_load_from_singlefile env libs config flux_conf
        (r.1, yamlIOTrace env config_path ++ r.2)
      | _ => (.error .unsupportedSubPart, yamlIOTrace env config_path)

/-- Embedding of `FluxBnbQuantizednf4bCheckpointModel._load_from_singlefile`
(flux.py lines 212-231): the skeleton is built under
`accelerate.init_empty_weights()`, then `quantize_model_nf4` runs, and only
then is the weight file read and overlaid. -/
def FluxBnb_load_from_singlefile (env : Env) (libs : ExternalLibs)
    (config : ModelConfig) (flux_conf : YamlDoc) :
    Except LoadError AnyModel × List Event :=
  match config with
  | .mainBnbQuantized4bCheckpoint path _ =>
    match alookup flux_conf "params" with
    | none => (.error .keyError, [])
    | some rawParams =>
      let fd := filteredData rawParams libs.fluxFields
      if libs.fluxParamsOk fd then
        let skel := libs.quantizeNF4 [] (libs.fluxInitEmpty fd)
        match alookup env.weightFiles path with
        | none =>
          (.error .deserializeError,
           [.silenceEnter, .constructSkeletonEmpty, .quantize,
            .readWeightFile path, .silenceExit])
        | some sd =>
          match load_state_dict false true skel sd with
          | .error e =>
            (.error e,
             [.silenceEnter, .constructSkeletonEmpty, .quantize,
              .readWeightFile path, .overlayStateDict, .silenceExit])
          | .ok finalSd =>
            (.ok (.net fd finalSd true),
             [.silenceEnter, .constructSkeletonEmpty, .quantize,
              .readWeightFile path, .overlayStateDict, .silenceExit])
      else (.error .dataclassError, [])
  | _ => (.error .assertionError, [])

/-- Embedding of `FluxBnbQuantizednf4bCheckpointModel._load_model`
(flux.py lines 191-210); same `CheckpointConfigBase` guard as the plain
main-checkpoint loader. -/
def FluxBnb_load_model (env : Env) (libs : ExternalLibs)
    (config : ModelConfig) (submodel_type : Option SubModelType) :
    Except LoadError AnyModel × List Event :=
  match checkpointFields config with
  | none => (.error .configTypeMismatch, [])
  | some (_, config_path) =>
    match alookup env.yamlFiles (yamlFilePath env config_path) with
    | none => (.error .configParseError, [.openYaml (yamlFilePath env config_path)])
    | some none => (.error .configParseError, yamlIOTrace env config_path)
    | some (some flux_conf) =>
      match submodel_type with
      | some .Transformer =>
        let r := FluxBnb_load_from_singlefile env libs config flux_conf
        (r.1, yamlIOTrace env config_path ++ r.2)
      | _ => (.error .unsupportedSubPart, yamlIOTrace env config_path)

/-- Modelled from the spec: the example scenario's target parameter
structure, with declared field set resolution, in_channels, out_channels,
where out_channels carries a dataclass default.  The real dataclasses
(AutoEncoderParams, FluxParams) live in `invokeai/backend/flux`, outside the
given source file; the spec's section 8 example scenario is stated against
this three-field shape. -/
structure ExampleParams where
  resolution : Int
  in_channels : Int
  out_channels : Int
  deriving DecidableEq, Repr

/-- Modelled from the spec: the declared default of the out_channels field
(the spec fixes no numeric value, only that a default exists). -/
def exampleOutChannelsDefault : Int := 8

/-- Modelled from the spec: keyword construction `ExampleParams(**data)` —
unknown keywords are a TypeError, missing required fields fail, and
out_channels falls back to its declared default when absent. -/
def mkExampleParams (data : List (String × Int)) : Option ExampleParams :=
  if data.all (fun kv => ["resolution", "in_channels", "out_channels"].contains kv.1) then
    match alookup data "resolution", alookup data "in_channels" with
    | some r, some i =>
      some { resolution := r, in_channels := i,
             out_channels := (alookup data "out_channels").getD exampleOutChannelsDefault }
    | _, _ => none
  else none

/-- Depth-tracking well-scopedness check for warning suppression: YAML
open/parse events happen only outside any `SilenceWarnings` block, skeleton
construction, quantization, weight-file reads and overlays happen only
inside one, enters and exits balance, and the suppression depth is back to
zero when the call returns (on every exit path). -/
def scopedAux : List Event → Nat → Bool
  | [], d => d == 0
  | .silenceEnter :: r, d => scopedAux r (d + 1)
  | .silenceExit :: _, 0 => false
  | .silenceExit :: r, d + 1 => scopedAux r d
  | .openYaml _ :: r, d => d == 0 && scopedAux r d
  | .parseYaml _ :: r, d => d == 0 && scopedAux r d
  | .constructSkeleton :: r, d => decide (0 < d) && scopedAux r d
  | .constructSkeletonEmpty :: r, d => decide (0 < d) && scopedAux r d
  | .quantize :: r, d => decide (0 < d) && scopedAux r d
  | .readWeightFile _ :: r, d => decide (0 < d) && scopedAux r d
  | .overlayStateDict :: r, d => decide (0 < d) && scopedAux r d
  | .fromPretrained _ :: r, d => scopedAux r d
  | .delegateToSuper :: r, d => scopedAux r d

/-- Well-scoped warning suppression over a whole call trace. -/
def scopedTraceOk (t : List Event) : Bool := scopedAux t 0

/-- A tiny concrete filesystem used to instantiate the universally
quantified theorems below at a concrete input. -/
def witnessEnv : Env where
  legacy_conf_path := "cfg"
  yamlFiles :=
    [("cfg/flux.yaml", some [("params", [("depth", 2), ("junk", 5)])]),
     ("cfg/noparams.yaml", some [("other", [("depth", 2)])])]
  weightFiles := [("w.safetensors", [("pA", 7), ("pZ", 9)])]

/-- A concrete instantiation of the uninterpreted external-library
behaviour, used to instantiate the universally quantified theorems below. -/
def witnessLibs : ExternalLibs where
  autoEncoderFields := ["depth"]
  fluxFields := ["depth"]
  autoEncoderParamsOk := fun _ => true
  fluxParamsOk := fun _ => true
  autoEncoderInit := fun _ => ([("pA", 1), ("pB", 2)] : List (String × Nat))
  fluxInit := fun _ => ([("pA", 1)] : List (String × Nat))
  fluxInitEmpty := fun _ => ([] : List (String × Nat))
  quantizeNF4 := fun _ sd => sd
  superLoad := fun _ _ => .error .configTypeMismatch

/-- Exhaustive characterization of the result and trace of
`FluxVAELoader._load_model`: delegation, YAML failure, params-key failure or
dataclass failure after parsing, weight-file failure inside the suppression
scope, or full success. -/
theorem FluxVAELoader_cases (env : Env) (libs : ExternalLibs) (config : ModelConfig)
    (sub : Option SubModelType) :
    FluxVAELoader_load_model env libs config sub
      = (libs.superLoad config sub, [.delegateToSuper])
    ∨ (∃ cp e, FluxVAELoader_load_model env libs config sub
        = (.error e, [.openYaml cp]))
    ∨ (∃ cp e, FluxVAELoader_load_model env libs config sub
        = (.error e, [.openYaml cp, .parseYaml cp]))
    ∨ (∃ cp p, FluxVAELoader_load_model env libs config sub
        = (.error .deserializeError,
           [.openYaml cp, .parseYaml cp, .silenceEnter, .constructSkeleton,
            .readWeightFile p, .silenceExit]))
    ∨ (∃ cp p m, FluxVAELoader_load_model env libs config sub
        = (.ok m,
           [.openYaml cp, .parseYaml cp, .silenceEnter, .constructSkeleton,
            .readWeightFile p, .overlayStateDict, .silenceExit])) := by
  unfold FluxVAELoader_load_model
  dsimp only
  repeat' split
  all_goals simp_all [yamlIOTrace, load_state_dict]

/-- Exhaustive characterization of the result and trace of
`FluxCheckpointModel._load_model`. -/
theorem FluxCheckpointModel_cases (env : Env) (libs : ExternalLibs) (config : ModelConfig)
    (sub : Option SubModelType) :
    FluxCheckpointModel_load_model env libs config sub
      = (.error .configTypeMismatch, [])
    ∨ (∃ cp e, FluxCheckpointModel_load_model env libs config sub
        = (.error e, [.openYaml cp]))
    ∨ (∃ cp e, FluxCheckpointModel_load_model env libs config sub
        = (.error e, [.openYaml cp, .parseYaml cp]))
    ∨ (∃ cp p, FluxCheckpointModel_load_model env libs config sub
        = (.error .deserializeError,
           [.openYaml cp, .parseYaml cp, .silenceEnter, .constructSkeleton,
            .readWeightFile p, .silenceExit]))
    ∨ (∃ cp p m, FluxCheckpointModel_load_model env libs config sub
        = (.ok m,
           [.openYaml cp, .parseYaml cp, .silenceEnter, .constructSkeleton,
            .readWeightFile p, .overlayStateDict, .silenceExit])) := by
  unfold FluxCheckpointModel_load_model FluxCheckpointModel_load_from_singlefile
  dsimp only
  repeat' split
  all_goals simp_all [yamlIOTrace, load_state_dict]

/-- Exhaustive characterization of the result and trace of
`FluxBnbQuantizednf4bCheckpointModel._load_model`: in particular no trace
ever contains a full-precision `constructSkeleton` event, and the only
success trace is empty-skeleton, quantize, read, overlay. -/
theorem FluxBnb_cases (env : Env) (libs : ExternalLibs) (config : ModelConfig)
    (sub : Option SubModelType) :
    FluxBnb_load_model env libs config sub
      = (.error .configTypeMismatch, [])
    ∨ (∃ cp e, FluxBnb_load_model env libs config sub
        = (.error e, [.openYaml cp]))
    ∨ (∃ cp e, FluxBnb_load_model env libs config sub
        = (.error e, [.openYaml cp, .parseYaml cp]))
    ∨ (∃ cp p, FluxBnb_load_model env libs config sub
        = (.error .deserializeError,
           [.openYaml cp, .parseYaml cp, .silenceEnter, .constructSkeletonEmpty,
            .quantize, .readWeightFile p, .silenceExit]))
    ∨ (∃ cp p m, FluxBnb_load_model env libs config sub
        = (.ok m,
           [.openYaml cp, .parseYaml cp, .silenceEnter, .constructSkeletonEmpty,
            .quantize, .readWeightFile p, .overlayStateDict, .silenceExit])) := by
  unfold FluxBnb_load_model FluxBnb_load_from_singlefile
  dsimp only
  repeat' split
  all_goals simp_all [yamlIOTrace, load_state_dict]

/-- C2: weight overlay onto a constructed skeleton is non-strict.  For a
skeleton with distinct parameter names A, B, C and a weight file with names
B, C, D, the overlay the loaders perform
(`load_state_dict(sd, strict=False, assign=True)`) succeeds, B and C take
the file's values, D is ignored, and A retains its skeleton value;
moreover the VAE loader returns exactly the model whose state dict is that
non-strict overlay of the freshly constructed skeleton with the file. -/
theorem load_state_dict_nonstrict_overlay
    (A B C D : String) (a b c bv cv dv : Nat)
    (hAB : A ≠ B) (hAC : A ≠ C) (hAD : A ≠ D)
    (hBC : B ≠ C) (hBD : B ≠ D) (hCD : C ≠ D) :
    load_state_dict false true ([(A, a), (B, b), (C, c)] : List (String × Nat))
        ([(B, bv), (C, cv), (D, dv)] : List (String × Nat))
      = .ok [(A, a), (B, bv), (C, cv)]
    ∧ (∀ (env : Env) (libs : ExternalLibs) (p cp : String) (doc : YamlDoc)
          (raw : List (String × Int)) (sd finalSd : StateDict),
        alookup env.yamlFiles (yamlFilePath env cp) = some (some doc) →
        alookup doc "params" = some raw →
        libs.autoEncoderParamsOk (filteredData raw libs.autoEncoderFields) = true →
        alookup env.weightFiles p = some sd →
        load_state_dict false true
            (libs.autoEncoderInit (filteredData raw libs.autoEncoderFields)) sd
          = .ok finalSd →
        (FluxVAELoader_load_model env libs (.vaeCheckpoint p cp) none).1
          = .ok (.net (filteredData raw libs.autoEncoderFields) finalSd false)) := by
  constructor
  · simp [load_state_dict, alookup, hAB, hAC, hAD, hBC, hBD, hCD,
          hAB.symm, hAC.symm, hAD.symm, hBC.symm, hBD.symm, hCD.symm]
  · intro env libs p cp doc raw sd finalSd h1 h2 h3 h4 h5
    simp [FluxVAELoader_load_model, h1, h2, h3, h4, h5]

/-- Witness for C2 at concrete parameter names and values. -/
theorem load_state_dict_nonstrict_overlay_witness :
    load_state_dict false true ([("pA", 1), ("pB", 2), ("pC", 3)] : List (String × Nat))
        ([("pB", 20), ("pC", 30), ("pD", 40)] : List (String × Nat))
      = .ok [("pA", 1), ("pB", 20), ("pC", 30)]
    ∧ (FluxVAELoader_load_model witnessEnv witnessLibs
          (.vaeCheckpoint "w.safetensors" "flux.yaml") none).1
      = .ok (.net (filteredData [("depth", 2), ("junk", 5)] witnessLibs.autoEncoderFields)
             [("pA", 7), ("pB", 2)] false) :=
  ⟨(load_state_dict_nonstrict_overlay "pA" "pB" "pC" "pD" 1 2 3 20 30 40
      (by decide) (by decide) (by decide) (by decide) (by decide) (by decide)).1,
   (load_state_dict_nonstrict_overlay "pA" "pB" "pC" "pD" 1 2 3 20 30 40
      (by decide) (by decide) (by decide) (by decide) (by decide) (by decide)).2
     witnessEnv witnessLibs "w.safetensors" "flux.yaml"
     [("params", [("depth", 2), ("junk", 5)])] [("depth", 2), ("junk", 5)]
     ([("pA", 7), ("pZ", 9)] : List (String × Nat))
     ([("pA", 7), ("pB", 2)] : List (String × Nat))
     rfl rfl rfl rfl rfl⟩

/-- C4: architecture-metadata filtering is a set-intersection keyed by field
name (a pair survives iff it is in the document and its key is in the target
field set), and in the spec's example scenario — params resolution 256,
in_channels 3, extra_unused_field 99 against target fields resolution,
in_channels, out_channels — the filtered set is exactly resolution 256 and
in_channels 3, the parameter object is constructed with the declared default
for out_channels, and its in_channels equals 3. -/
theorem filteredData_intersection_example :
    (∀ (conf : List (String × Int)) (fs : List String) (k : String) (v : Int),
        (k, v) ∈ filteredData conf fs ↔ (k, v) ∈ conf ∧ k ∈ fs)
    ∧ filteredData [("resolution", 256), ("in_channels", 3), ("extra_unused_field", 99)]
        ["resolution", "in_channels", "out_channels"]
      = [("resolution", 256), ("in_channels", 3)]
    ∧ mkExampleParams
        (filteredData [("resolution", 256), ("in_channels", 3), ("extra_unused_field", 99)]
          ["resolution", "in_channels", "out_channels"])
      = some { resolution := 256, in_channels := 3,
               out_channels := exampleOutChannelsDefault }
    ∧ ExampleParams.in_channels
        { resolution := 256, in_channels := 3,
          out_channels := exampleOutChannelsDefault } = 3 := by
  refine ⟨?_, by decide, by decide, rfl⟩
  intro conf fs k v
  simp [filteredData, List.mem_filter]

/-- C7: filtering the filtered result again yields the same mapping, and
permuting the document's key order permutes — hence preserves as a set —
the filtered parameter set. -/
theorem filteredData_idempotent_order_independent :
    (∀ (conf : List (String × Int)) (fs : List String),
        filteredData (filteredData conf fs) fs = filteredData conf fs)
    ∧ (∀ (conf₁ conf₂ : List (String × Int)) (fs : List String),
        conf₁.Perm conf₂ → (filteredData conf₁ fs).Perm (filteredData conf₂ fs)) := by
  constructor
  · intro conf fs
    simp [filteredData, List.filter_filter]
  · intro c1 c2 fs h
    exact h.filter _

/-- Witness for C7 on a concrete permuted document. -/
theorem filteredData_idempotent_order_independent_witness :
    (filteredData [("w", 1), ("r", 2)] ["r"]).Perm
      (filteredData [("r", 2), ("w", 1)] ["r"]) :=
  filteredData_idempotent_order_independent.2
    [("w", 1), ("r", 2)] [("r", 2), ("w", 1)] ["r"] (by decide)

/-- C10: for the Tokenizer2 sub-part the plain and the 8-bit-quantized T5
loaders are equivalent — both construct a T5 tokenizer from the
tokenizer_2 subdirectory of the configured path with max_length 512 — and
for every sub-part other than TextEncoder2 the two loaders (each on its own
config variant with the same path) return identical results. -/
theorem t5_tokenizer2_loaders_agree
    (env₁ env₂ : Env) (libs₁ libs₂ : ExternalLibs) (p : String) :
    T5Encoder8bCheckpointModel_load_model env₁ libs₁ (.t5Encoder8b p) (some .Tokenizer2)
      = (.ok (.t5Tokenizer (p ++ "/tokenizer_2") 512),
         [.fromPretrained (p ++ "/tokenizer_2")])
    ∧ T5EncoderCheckpointModel_load_model env₂ libs₂ (.t5Encoder p) (some .Tokenizer2)
      = (.ok (.t5Tokenizer (p ++ "/tokenizer_2") 512),
         [.fromPretrained (p ++ "/tokenizer_2")])
    ∧ ∀ (sub : Option SubModelType), sub ≠ some .TextEncoder2 →
        T5Encoder8bCheckpointModel_load_model env₁ libs₁ (.t5Encoder8b p) sub
          = T5EncoderCheckpointModel_load_model env₂ libs₂ (.t5Encoder p) sub := by
  refine ⟨rfl, rfl, ?_⟩
  intro sub h
  cases sub with
  | none => rfl
  | some s => cases s <;> first | rfl | exact absurd rfl h

/-- Witness for C10 at a concrete path and sub-part. -/
theorem t5_tokenizer2_loaders_agree_witness :
    T5Encoder8bCheckpointModel_load_model witnessEnv witnessLibs
        (.t5Encoder8b "root") (some .Tokenizer2)
      = (.ok (.t5Tokenizer ("root" ++ "/tokenizer_2") 512),
         [.fromPretrained ("root" ++ "/tokenizer_2")])
    ∧ T5Encoder8bCheckpointModel_load_model witnessEnv witnessLibs
        (.t5Encoder8b "root") (some .Tokenizer2)
      = T5EncoderCheckpointModel_load_model witnessEnv witnessLibs
          (.t5Encoder "root") (some .Tokenizer2) :=
  ⟨(t5_tokenizer2_loaders_agree witnessEnv witnessEnv witnessLibs witnessLibs "root").1,
   (t5_tokenizer2_loaders_agree witnessEnv witnessEnv witnessLibs witnessLibs "root").2.2
     (some .Tokenizer2) (by decide)⟩

/-- C1 counterexample: a VAE-checkpoint config handed to the main Flux
checkpoint loader with the Transformer sub-part passes the
`CheckpointConfigBase` guard, the architecture YAML is opened (and parsed),
and the load only fails afterwards, at the
`assert isinstance(config, MainCheckpointConfig)` inside
`_load_from_singlefile` — not with the guard's config-type-mismatch error
and not before file I/O, contradicting the claim. -/
theorem fluxMain_vae_config_fails_after_io :
    (FluxCheckpointModel_load_model witnessEnv witnessLibs
        (.vaeCheckpoint "w.safetensors" "flux.yaml") (some .Transformer)).1
      = .error .assertionError
    ∧ Event.openYaml "cfg/flux.yaml"
        ∈ (FluxCheckpointModel_load_model witnessEnv witnessLibs
            (.vaeCheckpoint "w.safetensors" "flux.yaml") (some .Transformer)).2 :=
  ⟨rfl, by decide⟩

/-- C1 amended: a config that is not checkpoint-based at all fails both
single-file Flux loaders with the config-type-mismatch error before any
file I/O (the trace is empty); but a checkpoint-based config of the wrong
concrete variant (e.g. a VAE-checkpoint config) passes the
`CheckpointConfigBase` guard, the architecture YAML is opened and parsed,
and the mismatch is only detected afterwards by the assertion inside
`_load_from_singlefile` when the Transformer sub-part is requested. -/
theorem config_mismatch_detection_points
    (env : Env) (libs : ExternalLibs) (config : ModelConfig)
    (sub : Option SubModelType) :
    (config.isCheckpointConfigBase = false →
        FluxCheckpointModel_load_model env libs config sub
          = (.error .configTypeMismatch, [])
        ∧ FluxBnb_load_model env libs config sub
          = (.error .configTypeMismatch, []))
    ∧ (∀ p cp doc,
        alookup env.yamlFiles (yamlFilePath env cp) = some (some doc) →
        FluxCheckpointModel_load_model env libs (.vaeCheckpoint p cp) (some .Transformer)
          = (.error .assertionError, yamlIOTrace env cp)
        ∧ FluxBnb_load_model env libs (.vaeCheckpoint p cp) (some .Transformer)
          = (.error .assertionError, yamlIOTrace env cp)) := by
  constructor
  · intro h
    cases config <;>
      simp_all [FluxCheckpointModel_load_model, FluxBnb_load_model,
        checkpointFields, ModelConfig.isCheckpointConfigBase]
  · intro p cp doc h
    constructor
    · simp [FluxCheckpointModel_load_model, checkpointFields, h,
        FluxCheckpointModel_load_from_singlefile]
    · simp [FluxBnb_load_model, checkpointFields, h,
        FluxBnb_load_from_singlefile]

/-- Witness for the amended C1: both detection points at concrete inputs. -/
theorem config_mismatch_detection_points_witness :
    FluxBnb_load_model witnessEnv witnessLibs (.clipEmbedDiffusers "p") none
      = (.error .configTypeMismatch, [])
    ∧ FluxCheckpointModel_load_model witnessEnv witnessLibs
        (.vaeCheckpoint "w.safetensors" "flux.yaml") (some .Transformer)
      = (.error .assertionError, yamlIOTrace witnessEnv "flux.yaml") :=
  ⟨((config_mismatch_detection_points witnessEnv witnessLibs
      (.clipEmbedDiffusers "p") none).1 rfl).2,
   ((config_mismatch_detection_points witnessEnv witnessLibs
      (.clipEmbedDiffusers "p") none).2 "w.safetensors" "flux.yaml"
      [("params", [("depth", 2), ("junk", 5)])] rfl).1⟩

/-- C3: on the quantized single-file path no trace ever contains a
full-precision skeleton allocation (`constructSkeleton`), and every
successful load's trace is exactly YAML open, YAML parse, suppression
enter, empty-skeleton construction, quantization, weight-file read, overlay,
suppression exit — so the skeleton is built with empty weight storage, the
quantization engine runs on it, and only then is the weight file
deserialized and overlaid. -/
theorem fluxBnb_quantize_before_weights
    (env : Env) (libs : ExternalLibs) (config : ModelConfig)
    (sub : Option SubModelType) :
    Event.constructSkeleton ∉ (FluxBnb_load_model env libs config sub).2
    ∧ (∀ m, (FluxBnb_load_model env libs config sub).1 = .ok m →
        ∃ cp p, (FluxBnb_load_model env libs config sub).2
          = [.openYaml cp, .parseYaml cp, .silenceEnter, .constructSkeletonEmpty,
             .quantize, .readWeightFile p, .overlayStateDict, .silenceExit]) := by
  constructor
  · rcases FluxBnb_cases env libs config sub with
      h | ⟨cp, e, h⟩ | ⟨cp, e, h⟩ | ⟨cp, p, h⟩ | ⟨cp, p, m, h⟩ <;>
      rw [h] <;> simp
  · intro m hm
    rcases FluxBnb_cases env libs config sub with
      h | ⟨cp, e, h⟩ | ⟨cp, e, h⟩ | ⟨cp, p, h⟩ | ⟨cp, p, m', h⟩
    · rw [h] at hm; exact absurd hm (by simp)
    · rw [h] at hm; exact absurd hm (by simp)
    · rw [h] at hm; exact absurd hm (by simp)
    · rw [h] at hm; exact absurd hm (by simp)
    · rw [h]; exact ⟨cp, p, rfl⟩

/-- Witness for C3: a concrete successful quantized load with the full
ordered trace. -/
theorem fluxBnb_quantize_before_weights_witness :
    ∃ cp p, (FluxBnb_load_model witnessEnv witnessLibs
        (.mainBnbQuantized4bCheckpoint "w.safetensors" "flux.yaml")
        (some .Transformer)).2
      = [.openYaml cp, .parseYaml cp, .silenceEnter, .constructSkeletonEmpty,
         .quantize, .readWeightFile p, .overlayStateDict, .silenceExit] :=
  (fluxBnb_quantize_before_weights witnessEnv witnessLibs
      (.mainBnbQuantized4bCheckpoint "w.safetensors" "flux.yaml")
      (some .Transformer)).2
    (.net [("depth", 2)] ([] : List (String × Nat)) true) rfl

/-- C5: requesting a sub-part outside a loader's closed enumeration fails
with the unsupported-sub-part error and constructs nothing — the CLIP and
T5 loaders return with an empty trace, and the two main checkpoint loaders
(which read the architecture YAML before dispatching on the sub-part)
return with a trace that is exactly the YAML open and parse, containing no
construction, quantization, weight read or overlay event. -/
theorem unsupported_subpart_fails
    (env : Env) (libs : ExternalLibs) (sub : Option SubModelType) :
    (∀ p, sub ≠ some .Tokenizer → sub ≠ some .TextEncoder →
        ClipCheckpointModel_load_model env libs (.clipEmbedDiffusers p) sub
          = (.error .unsupportedSubPart, []))
    ∧ (∀ p, sub ≠ some .Tokenizer2 → sub ≠ some .TextEncoder2 →
        T5Encoder8bCheckpointModel_load_model env libs (.t5Encoder8b p) sub
          = (.error .unsupportedSubPart, [])
        ∧ T5EncoderCheckpointModel_load_model env libs (.t5Encoder p) sub
          = (.error .unsupportedSubPart, []))
    ∧ (∀ p cp doc, sub ≠ some .Transformer →
        alookup env.yamlFiles (yamlFilePath env cp) = some (some doc) →
        FluxCheckpointModel_load_model env libs (.mainCheckpoint p cp) sub
          = (.error .unsupportedSubPart, yamlIOTrace env cp)
        ∧ FluxBnb_load_model env libs (.mainBnbQuantized4bCheckpoint p cp) sub
          = (.error .unsupportedSubPart, yamlIOTrace env cp)) := by
  refine ⟨?_, ?_, ?_⟩
  · intro p h1 h2
    cases sub with
    | none => rfl
    | some s => cases s <;> first | rfl | exact absurd rfl h1 | exact absurd rfl h2
  · intro p h1 h2
    constructor <;>
      (cases sub with
       | none => rfl
       | some s =>
         cases s <;> first | rfl | exact absurd rfl h1 | exact absurd rfl h2)
  · intro p cp doc h1 h2
    constructor
    · simp only [FluxCheckpointModel_load_model, checkpointFields, h2]
    · simp only [FluxBnb_load_model, checkpointFields, h2]

/-- Witness for C5: the VAE sub-part is outside every enumeration. -/
theorem unsupported_subpart_fails_witness :
    ClipCheckpointModel_load_model witnessEnv witnessLibs
        (.clipEmbedDiffusers "p") (some .VAE)
      = (.error .unsupportedSubPart, [])
    ∧ FluxCheckpointModel_load_model witnessEnv witnessLibs
        (.mainCheckpoint "w.safetensors" "flux.yaml") (some .VAE)
      = (.error .unsupportedSubPart, yamlIOTrace witnessEnv "flux.yaml") :=
  ⟨(unsupported_subpart_fails witnessEnv witnessLibs (some .VAE)).1 "p"
      (by decide) (by decide),
   ((unsupported_subpart_fails witnessEnv witnessLibs (some .VAE)).2.2
      "w.safetensors" "flux.yaml" [("params", [("depth", 2), ("junk", 5)])]
      (by decide) rfl).1⟩

/-- C6: warning suppression is well scoped on all three single-file load
paths: for every environment, external-library behaviour, config and
sub-part — so on every exit path, failures included — the trace opens and
parses YAML only outside any suppression scope, performs skeleton
construction, quantization, weight reads and overlays only inside one, and
returns with suppression depth zero. -/
theorem warnings_suppressed_scoped
    (env : Env) (libs : ExternalLibs) (config : ModelConfig)
    (sub : Option SubModelType) :
    scopedTraceOk (FluxVAELoader_load_model env libs config sub).2 = true
    ∧ scopedTraceOk (FluxCheckpointModel_load_model env libs config sub).2 = true
    ∧ scopedTraceOk (FluxBnb_load_model env libs config sub).2 = true := by
  refine ⟨?_, ?_, ?_⟩
  · rcases FluxVAELoader_cases env libs config sub with
      h | ⟨cp, e, h⟩ | ⟨cp, e, h⟩ | ⟨cp, p, h⟩ | ⟨cp, p, m, h⟩ <;> rw [h] <;> rfl
  · rcases FluxCheckpointModel_cases env libs config sub with
      h | ⟨cp, e, h⟩ | ⟨cp, e, h⟩ | ⟨cp, p, h⟩ | ⟨cp, p, m, h⟩ <;> rw [h] <;> rfl
  · rcases FluxBnb_cases env libs config sub with
      h | ⟨cp, e, h⟩ | ⟨cp, e, h⟩ | ⟨cp, p, h⟩ | ⟨cp, p, m, h⟩ <;> rw [h] <;> rfl

/-- C8: FluxVAELoader delegates any non-VAE-checkpoint config to the
generic superclass loader instead of raising, while every other loader in
the module fails immediately with the config-type-mismatch error when its
`isinstance` guard rejects the config. -/
theorem fluxVAE_delegates_on_mismatch
    (env : Env) (libs : ExternalLibs) (config : ModelConfig)
    (sub : Option SubModelType)
    (h : config.isVAECheckpoint = false) :
    FluxVAELoader_load_model env libs config sub
      = (libs.superLoad config sub, [.delegateToSuper])
    ∧ (config.isClipEmbedDiffusers = false →
        ClipCheckpointModel_load_model env libs config sub
          = (.error .configTypeMismatch, []))
    ∧ (config.isT5Encoder8b = false →
        T5Encoder8bCheckpointModel_load_model env libs config sub
          = (.error .configTypeMismatch, []))
    ∧ (config.isT5Encoder = false →
        T5EncoderCheckpointModel_load_model env libs config sub
          = (.error .configTypeMismatch, []))
    ∧ (config.isCheckpointConfigBase = false →
        FluxCheckpointModel_load_model env libs config sub
          = (.error .configTypeMismatch, [])
        ∧ FluxBnb_load_model env libs config sub
          = (.error .configTypeMismatch, [])) := by
  cases config <;>
    simp_all [FluxVAELoader_load_model, ClipCheckpointModel_load_model,
      T5Encoder8bCheckpointModel_load_model, T5EncoderCheckpointModel_load_model,
      FluxCheckpointModel_load_model, FluxBnb_load_model, checkpointFields,
      ModelConfig.isVAECheckpoint, ModelConfig.isClipEmbedDiffusers,
      ModelConfig.isT5Encoder8b, ModelConfig.isT5Encoder,
      ModelConfig.isCheckpointConfigBase]

/-- Witness for C8 at a concrete mismatched config. -/
theorem fluxVAE_delegates_on_mismatch_witness :
    FluxVAELoader_load_model witnessEnv witnessLibs
        (.mainCheckpoint "w.safetensors" "flux.yaml") none
      = (witnessLibs.superLoad (.mainCheckpoint "w.safetensors" "flux.yaml") none,
         [.delegateToSuper])
    ∧ ClipCheckpointModel_load_model witnessEnv witnessLibs
        (.mainCheckpoint "w.safetensors" "flux.yaml") none
      = (.error .configTypeMismatch, []) :=
  ⟨(fluxVAE_delegates_on_mismatch witnessEnv witnessLibs
      (.mainCheckpoint "w.safetensors" "flux.yaml") none rfl).1,
   (fluxVAE_delegates_on_mismatch witnessEnv witnessLibs
      (.mainCheckpoint "w.safetensors" "flux.yaml") none rfl).2.1 rfl⟩

/-- C9: when the resolved YAML document lacks a top-level params mapping,
each of the three checkpoint-path loads fails with a key error and its
trace is exactly the YAML open and parse — no skeleton is constructed and
the weight file is never read. -/
theorem missing_params_key_fails
    (env : Env) (libs : ExternalLibs) :
    (∀ p cp doc (sub : Option SubModelType),
        alookup env.yamlFiles (yamlFilePath env cp) = some (some doc) →
        alookup doc "params" = none →
        FluxVAELoader_load_model env libs (.vaeCheckpoint p cp) sub
          = (.error .keyError, yamlIOTrace env cp))
    ∧ (∀ p cp doc,
        alookup env.yamlFiles (yamlFilePath env cp) = some (some doc) →
        alookup doc "params" = none →
        FluxCheckpointModel_load_model env libs (.mainCheckpoint p cp) (some .Transformer)
          = (.error .keyError, yamlIOTrace env cp)
        ∧ FluxBnb_load_model env libs (.mainBnbQuantized4bCheckpoint p cp) (some .Transformer)
          = (.error .keyError, yamlIOTrace env cp)) := by
  constructor
  · intro p cp doc sub h1 h2
    simp [FluxVAELoader_load_model, h1, h2]
  · intro p cp doc h1 h2
    constructor
    · simp [FluxCheckpointModel_load_model,
        FluxCheckpointModel_load_from_singlefile, checkpointFields, h1, h2]
    · simp [FluxBnb_load_model, FluxBnb_load_from_singlefile,
        checkpointFields, h1, h2]

/-- Witness for C9 at a concrete YAML document without a params key. -/
theorem missing_params_key_fails_witness :
    FluxVAELoader_load_model witnessEnv witnessLibs
        (.vaeCheckpoint "w.safetensors" "noparams.yaml") none
      = (.error .keyError, yamlIOTrace witnessEnv "noparams.yaml")
    ∧ FluxBnb_load_model witnessEnv witnessLibs
        (.mainBnbQuantized4bCheckpoint "w.safetensors" "noparams.yaml")
        (some .Transformer)
      = (.error .keyError, yamlIOTrace witnessEnv "noparams.yaml") :=
  ⟨(missing_params_key_fails witnessEnv witnessLibs).1 "w.safetensors"
      "noparams.yaml" [("other", [("depth", 2)])] none rfl rfl,
   ((missing_params_key_fails witnessEnv witnessLibs).2 "w.safetensors"
      "noparams.yaml" [("other", [("depth", 2)])] rfl rfl).2⟩

end FluxLoaders
